import Mathlib

/-!
# Quad batch: `include/graphics/gs_quad_batch.h`

A shallow embedding of the quad-batching layer: the batch lifecycle
(`begin` / `add` / `end` / `submit`), the raw append primitive, the default
quad geometry and the layout configuration of the batch API object.

Conventions of the embedding.

* C `float` values are elements of a type `F` that carries the arithmetic
  operations the code uses; no law is assumed of them. `binary32` is the
  instance that computes as IEEE 754 binary32 does, rounding to nearest, ties
  to even.
* The staging buffer is a sequence of bytes.  The object representation of a
  `float` is four bytes, supplied by the host (`Host.float_bytes`).
* Sizes and counts are natural numbers. A narrowing assignment of a `usize`
  expression to a `u32` variable is modelled by `u32`, reduction modulo
  `2 ^ 32`.
* Types and functions the header uses but does not define (the math types, the
  byte buffer, the dynamic array, the mesh, the device) are modelled from the
  specification and marked so.
* A call that halts the program (a failed assertion, a division by zero, a read
  past the end of the span it was given) returns `Except.error` with the kind
  of fault and the state reached in source order. A division by zero is
  undefined in C: of such a halt only the kind of fault describes the program.
* Calls into the graphics device are recorded, in order, in
  `gs_graphics_i.calls`.
-/

namespace GsQuadBatch

/-- One byte of memory. -/
abbrev Byte := Fin 256

/-- Narrowing of a size to the 32-bit unsigned type `u32`. -/
def u32 (n : Nat) : Nat := n % 2 ^ 32

/-- The ways a call can halt the program. -/
inductive Fault where
  | assertion_failed
  | division_by_zero
  | out_of_bounds_read
  deriving DecidableEq, Repr

/-- Result of a call that may halt: the new state, or the fault together with
the state at the halt. -/
abbrev Halting (σ : Type) := Except (Fault × σ) σ

/-! ## Math types (`math/gs_math.h`) -/

/-- Modelled from the spec: the 2-vector of `math/gs_math.h`. -/
structure gs_vec2 (F : Type) where
  x : F
  y : F
  deriving DecidableEq, Repr

/-- Modelled from the spec: the 3-vector of `math/gs_math.h`. -/
structure gs_vec3 (F : Type) where
  x : F
  y : F
  z : F
  deriving DecidableEq, Repr

/-- Modelled from the spec: the 4-vector of `math/gs_math.h`. -/
structure gs_vec4 (F : Type) where
  x : F
  y : F
  z : F
  w : F
  deriving DecidableEq, Repr

/-- Modelled from the spec: the 4x4 matrix of `math/gs_math.h`, given by its
four rows. -/
structure gs_mat4 (F : Type) where
  r0 : gs_vec4 F
  r1 : gs_vec4 F
  r2 : gs_vec4 F
  r3 : gs_vec4 F
  deriving DecidableEq, Repr

/-- Modelled from the spec: the transform of `math/gs_math.h`, a position, a
rotation quaternion and a scale. -/
structure gs_vqs (F : Type) where
  position : gs_vec3 F
  rotation : gs_vec4 F
  scale : gs_vec3 F
  deriving DecidableEq, Repr

section math

variable {F : Type}

/-- Dot product of two 4-vectors, summed left to right. -/
def gs_vec4_dot [Add F] [Mul F] (a b : gs_vec4 F) : F :=
  a.x * b.x + a.y * b.y + a.z * b.z + a.w * b.w

/-- Modelled from the spec: matrix-vector multiply (`gs_mat4_mul_vec4` of
`math/gs_math.h`), the homogeneous multiply of a 4x4 matrix with a 4-vector. -/
def gs_mat4_mul_vec4 [Add F] [Mul F] (m : gs_mat4 F) (v : gs_vec4 F) : gs_vec4 F :=
  { x := gs_vec4_dot m.r0 v, y := gs_vec4_dot m.r1 v,
    z := gs_vec4_dot m.r2 v, w := gs_vec4_dot m.r3 v }

/-- Modelled from the spec: `gs_vec4_scale` of `math/gs_math.h`, every
component multiplied by the scalar. -/
def gs_vec4_scale [Mul F] (v : gs_vec4 F) (s : F) : gs_vec4 F :=
  { x := v.x * s, y := v.y * s, z := v.z * s, w := v.w * s }

/-- The identity matrix. -/
def gs_mat4_identity [Zero F] [One F] : gs_mat4 F :=
  { r0 := ⟨1, 0, 0, 0⟩, r1 := ⟨0, 1, 0, 0⟩, r2 := ⟨0, 0, 1, 0⟩, r3 := ⟨0, 0, 0, 1⟩ }

/-- The literal `0.5f`. -/
def half [One F] [Add F] [Div F] : F := 1 / (1 + 1)

end math

/-! ## C `float` arithmetic: IEEE 754 binary32 -/

/-- Number of binary digits of `n`, for `n < 2 ^ 512`. -/
def bit_length_aux : Nat → Nat → Nat
  | 0, _ => 0
  | fuel + 1, n => if n = 0 then 0 else bit_length_aux fuel (n / 2) + 1

/-- Number of binary digits of `n`: `0` for `0`, else `floor(log2 n) + 1`. Every
magnitude the arithmetic below measures is under `2 ^ 512`. -/
def bit_length (n : Nat) : Nat := bit_length_aux 512 n

/-- A C `float` on a platform that evaluates `float` expressions in IEEE 754
binary32: the value is its bit pattern, a number below `2 ^ 32` with the sign
in bit 31, the biased exponent in bits 30 to 23 and the fraction in bits 22 to
0. Rounding is to nearest, ties to even. -/
structure binary32 where
  bits : Nat
  deriving DecidableEq, Repr

namespace binary32

/-- The sign bit. -/
def sign (a : binary32) : Nat := a.bits / 2 ^ 31 % 2

/-- The biased exponent field. -/
def expo (a : binary32) : Nat := a.bits / 2 ^ 23 % 256

/-- The fraction field. -/
def frac (a : binary32) : Nat := a.bits % 2 ^ 23

/-- Whether the pattern is a NaN. -/
def is_nan (a : binary32) : Bool := a.expo == 255 && a.frac != 0

/-- Whether the pattern is an infinity. -/
def is_inf (a : binary32) : Bool := a.expo == 255 && a.frac == 0

/-- The magnitude of a finite value, counted in units of `2 ^ (-149)`, the
smallest positive value: a subnormal is `frac` units, a normal value is
`(2 ^ 23 + frac) * 2 ^ (expo - 1)` units. -/
def units (a : binary32) : Nat :=
  if a.expo = 0 then a.frac else (2 ^ 23 + a.frac) * 2 ^ (a.expo - 1)

/-- The NaN every invalid operation returns. -/
def nan : binary32 := ⟨0x7fc00000⟩

/-- The infinity of the given sign. -/
def inf (sign : Nat) : binary32 := ⟨sign * 2 ^ 31 + 255 * 2 ^ 23⟩

/-- The pattern of the value of the given sign and of magnitude `r` units, for a
magnitude that binary32 represents exactly; an infinity when it is too large. -/
def of_units (sign r : Nat) : binary32 :=
  if r < 2 ^ 23 then ⟨sign * 2 ^ 31 + r⟩
  else
    let j := bit_length r - 24
    if 255 ≤ j + 1 then inf sign
    else ⟨sign * 2 ^ 31 + (j + 1) * 2 ^ 23 + (r / 2 ^ j - 2 ^ 23)⟩

/-- The magnitude `n / d` units rounded to the nearest value binary32
represents, ties to the even significand: `s` is the spacing of the
representable values around `n / d`. -/
def round (sign n d : Nat) : binary32 :=
  let s := 2 ^ (bit_length (n / d) - 24)
  let q := n / (d * s)
  let rem := n % (d * s)
  let q := if d * s < 2 * rem ∨ (2 * rem = d * s ∧ q % 2 = 1) then q + 1 else q
  of_units sign (q * s)

/-- The `float` product. -/
def mul (a b : binary32) : binary32 :=
  let sign := (a.sign + b.sign) % 2
  if a.is_nan || b.is_nan then nan
  else if a.is_inf then
    (if b.is_inf then inf sign else if b.units = 0 then nan else inf sign)
  else if b.is_inf then (if a.units = 0 then nan else inf sign)
  else round sign (a.units * b.units) (2 ^ 149)

/-- The `float` quotient. -/
def div (a b : binary32) : binary32 :=
  let sign := (a.sign + b.sign) % 2
  if a.is_nan || b.is_nan then nan
  else if a.is_inf then (if b.is_inf then nan else inf sign)
  else if b.is_inf then ⟨sign * 2 ^ 31⟩
  else if b.units = 0 then (if a.units = 0 then nan else inf sign)
  else round sign (a.units * 2 ^ 149) b.units

/-- The `float` sum. -/
def add (a b : binary32) : binary32 :=
  if a.is_nan || b.is_nan then nan
  else if a.is_inf then (if b.is_inf && a.sign != b.sign then nan else a)
  else if b.is_inf then b
  else if a.sign = b.sign then round a.sign (a.units + b.units) 1
  else if b.units < a.units then round a.sign (a.units - b.units) 1
  else if a.units < b.units then round b.sign (b.units - a.units) 1
  else ⟨0⟩

/-- The `float` negation: the sign bit flipped. -/
def neg (a : binary32) : binary32 :=
  if a.sign = 0 then ⟨a.bits + 2 ^ 31⟩ else ⟨a.bits - 2 ^ 31⟩

end binary32

instance : Zero binary32 := ⟨⟨0⟩⟩

instance : One binary32 := ⟨⟨0x3f800000⟩⟩

instance : Neg binary32 := ⟨binary32.neg⟩

instance : Add binary32 := ⟨binary32.add⟩

instance : Mul binary32 := ⟨binary32.mul⟩

instance : Div binary32 := ⟨binary32.div⟩

/-! ## Vertex layout (`graphics/gs_graphics.h`) -/

/-- Modelled from the spec: the vertex-attribute-type enumeration of
`graphics/gs_graphics.h`; the tags are the ones this header uses. -/
inductive gs_vertex_attribute_type where
  | gs_vertex_attribute_float4
  | gs_vertex_attribute_float3
  | gs_vertex_attribute_float2
  deriving DecidableEq, Repr

export gs_vertex_attribute_type (gs_vertex_attribute_float4 gs_vertex_attribute_float3
  gs_vertex_attribute_float2)

/-- The value of `sizeof(gs_vertex_attribute_type)`: a C enumeration has the size of
an `int`. -/
def sizeof_gs_vertex_attribute_type : Nat := 4

/-- Modelled from the spec: bytes one attribute of the given type takes in a
vertex record, four per `float` component. -/
def gs_vertex_attribute_byte_size : gs_vertex_attribute_type → Nat
  | gs_vertex_attribute_float4 => 16
  | gs_vertex_attribute_float3 => 12
  | gs_vertex_attribute_float2 => 8

/-- Modelled from the spec: `gs_dyn_array_size`, the number of elements of a
dynamic array. -/
def gs_dyn_array_size {α : Type} (arr : List α) : Nat := arr.length

/-- Modelled from the spec: `gs_dyn_array_clear`, the dynamic array emptied. -/
def gs_dyn_array_clear {α : Type} (_arr : List α) : List α := []

/-- Modelled from the spec: `gs_dyn_array_push`, the element appended at the
end of the dynamic array. -/
def gs_dyn_array_push {α : Type} (arr : List α) (a : α) : List α := arr ++ [a]

/-- Modelled from the spec: the device's `calculate_vertex_size_in_bytes`, the
byte stride of one vertex record: the sum of the sizes of the first
`layout_count` attributes of the layout. -/
def calculate_vertex_size_in_bytes (layout : List gs_vertex_attribute_type)
    (layout_count : Nat) : Nat :=
  ((layout.take layout_count).map gs_vertex_attribute_byte_size).sum

/-! ## Byte buffer (`gs_byte_buffer`) -/

/-- Modelled from the spec: the growable byte buffer. `content` is the logical
content, the bytes before the write cursor; `slack` is the storage retained
after the cursor, whose bytes are stale. -/
structure gs_byte_buffer where
  content : List Byte
  slack : List Byte
  deriving DecidableEq, Repr

/-- The backing storage, `buffer` in the C structure. -/
def gs_byte_buffer.buffer (b : gs_byte_buffer) : List Byte := b.content ++ b.slack

/-- The logical size, `size` in the C structure. -/
def gs_byte_buffer.size (b : gs_byte_buffer) : Nat := b.content.length

/-- Modelled from the spec: `gs_byte_buffer_new`, an empty buffer. -/
def gs_byte_buffer_new : gs_byte_buffer := { content := [], slack := [] }

/-- Modelled from the spec: `gs_byte_buffer_clear`, the logical reset: the
size goes to zero, the storage is retained and not zeroed. -/
def gs_byte_buffer_clear (b : gs_byte_buffer) : gs_byte_buffer :=
  { content := [], slack := b.content ++ b.slack }

/-- Modelled from the spec: `gs_byte_buffer_bulk_write`, the bulk append of the
first `size` bytes of `src` at the write cursor, growing the storage if
needed. `none` when `src` has fewer than `size` bytes. -/
def gs_byte_buffer_bulk_write (b : gs_byte_buffer) (src : List Byte) (size : Nat) :
    Option gs_byte_buffer :=
  if size ≤ src.length then
    some { content := b.content ++ src.take size, slack := b.slack.drop size }
  else none

/-- Modelled from the spec: `gs_byte_buffer_free`, the storage released. -/
def gs_byte_buffer_free (_b : gs_byte_buffer) : gs_byte_buffer :=
  { content := [], slack := [] }

/-! ## Batch, API object and graphics device -/

/-- A resource handle, `gs_resource( T )`. -/
abbrev gs_resource := Nat

/-- Modelled from the spec: the mesh of `graphics/gs_mesh.h`: the handle of the
device vertex buffer and the count of vertices staged. -/
structure gs_mesh_t where
  vbo : gs_resource
  vertex_count : Nat
  deriving DecidableEq, Repr

/-- The batch, `gs_quad_batch_t`. -/
structure gs_quad_batch_t where
  raw_vertex_data : gs_byte_buffer
  mesh : gs_mesh_t
  material : gs_resource
  deriving DecidableEq, Repr

/-- The default vertex record, `gs_quad_batch_default_vert_t`. -/
structure gs_quad_batch_default_vert_t (F : Type) where
  position : gs_vec3 F
  uv : gs_vec2 F
  color : gs_vec4 F
  deriving DecidableEq, Repr

/-- The vertex information of the API, `gs_quad_batch_vert_info_t`. -/
structure gs_quad_batch_vert_info_t where
  layout : List gs_vertex_attribute_type
  deriving DecidableEq, Repr

/-- The value of a function-pointer slot of the API table: null, or the address
of one of the functions of this header. -/
inductive fn_ptr where
  | null
  | __gs_quad_batch_default_new
  | __gs_quad_batch_default_begin
  | __gs_quad_batch_default_end
  | __gs_quad_batch_default_add
  | __gs_quad_batch_default_submit
  | __gs_quad_batch_default_free
  | __gs_quad_batch_i_set_layout
  | __gs_quad_batch_i_set_shader
  deriving DecidableEq, Repr

/-- The API object, `gs_quad_batch_i`. -/
structure gs_quad_batch_i where
  new : fn_ptr
  begin : fn_ptr
  «end» : fn_ptr
  add : fn_ptr
  submit : fn_ptr
  free : fn_ptr
  set_layout : fn_ptr
  set_shader : fn_ptr
  shader : gs_resource
  vert_info : gs_quad_batch_vert_info_t
  deriving DecidableEq, Repr

/-- A call into the graphics device, with its arguments. A pointer argument
is recorded as the bytes (or layout entries) the device reads through it. -/
inductive gs_graphics_call where
  | construct_vertex_buffer (layout : List gs_vertex_attribute_type) (layout_count : Nat)
      (data : List Byte) (data_size : Nat)
  | update_vertex_buffer_data (vbo : gs_resource) (data : List Byte) (data_size : Nat)
  | bind_material_shader (cb : gs_resource) (material : gs_resource)
  | bind_material_uniforms (cb : gs_resource) (material : gs_resource)
  | bind_vertex_buffer (cb : gs_resource) (vbo : gs_resource)
  | draw (cb : gs_resource) (start : Nat) (count : Nat)
  | free_shader (shader : gs_resource)
  deriving DecidableEq, Repr

/-- Modelled from the spec: the graphics device `gs_graphics_i` of
`graphics/gs_graphics.h`, as far as this header uses it: the process-wide
batch API object and the calls made into the device so far, oldest first. -/
structure gs_graphics_i where
  quad_batch_i : gs_quad_batch_i
  calls : List gs_graphics_call
  deriving DecidableEq, Repr

/-- What the platform and the engine supply and this header only uses, taken
as parameters: the four bytes that are the object representation of a `float`,
and `gs_vqs_to_mat4` of `math/gs_math.h`, the 4x4 matrix a transform composes
into. -/
structure Host (F : Type) where
  float_bytes : F → Fin 4 → Byte
  gs_vqs_to_mat4 : gs_vqs F → gs_mat4 F

/-! ## Object representation of the default vertex record -/

section bytes

variable {F : Type}

/-- The four bytes of a `float`, lowest address first. -/
def float_object (host : Host F) (f : F) : List Byte := List.ofFn (host.float_bytes f)

/-- The bytes of a `gs_vec2`: its components in declaration order. -/
def gs_vec2_object (host : Host F) (v : gs_vec2 F) : List Byte :=
  float_object host v.x ++ float_object host v.y

/-- The bytes of a `gs_vec3`: its components in declaration order. -/
def gs_vec3_object (host : Host F) (v : gs_vec3 F) : List Byte :=
  float_object host v.x ++ float_object host v.y ++ float_object host v.z

/-- The bytes of a `gs_vec4`: its components in declaration order. -/
def gs_vec4_object (host : Host F) (v : gs_vec4 F) : List Byte :=
  float_object host v.x ++ float_object host v.y ++ float_object host v.z
    ++ float_object host v.w

/-- The bytes of a `gs_quad_batch_default_vert_t`: position, uv, color; every
member is made of `float`s, so there is no padding. -/
def gs_quad_batch_default_vert_object (host : Host F)
    (v : gs_quad_batch_default_vert_t F) : List Byte :=
  gs_vec3_object host v.position ++ gs_vec2_object host v.uv ++ gs_vec4_object host v.color

/-- The bytes of an array of default vertex records. -/
def verts_object (host : Host F) (verts : List (gs_quad_batch_default_vert_t F)) :
    List Byte :=
  (verts.map (gs_quad_batch_default_vert_object host)).flatten

/-- The value of `sizeof(gs_quad_batch_default_vert_t)`: nine `float`s. -/
def sizeof_gs_quad_batch_default_vert_t : Nat := 36

end bytes

/-! ## The batch operations -/

/-- The default constructor `__gs_quad_batch_default_new`: an empty staging
buffer, the material, and a device vertex buffer constructed with the layout
configured at this moment and no data. The handle the device returns is the
number of device calls made before. -/
def __gs_quad_batch_default_new (gfx : gs_graphics_i) (mat : gs_resource) :
    gs_quad_batch_t × gs_graphics_i :=
  let layout := gfx.quad_batch_i.vert_info.layout
  let layout_count := gs_dyn_array_size gfx.quad_batch_i.vert_info.layout
  let vbo : gs_resource := gfx.calls.length
  ({ raw_vertex_data := gs_byte_buffer_new,
     mesh := { vbo := vbo, vertex_count := 0 },
     material := mat },
   { gfx with calls := gfx.calls ++
      [gs_graphics_call.construct_vertex_buffer layout layout_count [] 0] })

/-- The default `begin`, `__gs_quad_batch_default_begin`. -/
def __gs_quad_batch_default_begin (batch : gs_quad_batch_t) : gs_quad_batch_t :=
  { batch with
    raw_vertex_data := gs_byte_buffer_clear batch.raw_vertex_data,
    mesh := { batch.mesh with vertex_count := 0 } }

/-- The default per-quad input, `gs_default_quad_info_t`. -/
structure gs_default_quad_info_t (F : Type) where
  transform : gs_vqs F
  uv : gs_vec4 F
  color : gs_vec4 F
  deriving DecidableEq, Repr

/-- The raw append primitive `__gs_quad_batch_add_raw_vert_data`. The stride
is computed from the layout the API object holds at the time of the call. With
a stride of zero the division of line 160 is undefined in C; the embedding
makes it a `division_by_zero` fault at its place in the source, before the
write of line 161. A compiler is free to perform that write before the
division traps, so the batch given with this fault is the batch in source
order and says nothing of the memory at the trap. -/
def __gs_quad_batch_add_raw_vert_data (gfx : gs_graphics_i) (qb : gs_quad_batch_t)
    (data : List Byte) (data_size : Nat) : Halting gs_quad_batch_t :=
  let qbi := gfx.quad_batch_i
  let layout := qbi.vert_info.layout
  let layout_count := gs_dyn_array_size qbi.vert_info.layout
  let vert_size := calculate_vertex_size_in_bytes layout layout_count
  if vert_size = 0 then
    Except.error (Fault.division_by_zero, qb)
  else
    let vert_count := u32 (data_size / vert_size)
    match gs_byte_buffer_bulk_write qb.raw_vertex_data data data_size with
    | none => Except.error (Fault.out_of_bounds_read, qb)
    | some buffer =>
      Except.ok { qb with
        raw_vertex_data := buffer,
        mesh := { qb.mesh with vertex_count := qb.mesh.vertex_count + vert_count } }

section default_add

variable {F : Type} [Zero F] [One F] [Neg F] [Add F] [Mul F] [Div F]

/-- The array `verts` that `__gs_quad_batch_default_add` builds for a quad:
the four corners, each transformed by the model matrix and scaled by the
reciprocal of its `w`, put in the order `tl, br, bl, tl, tr, br`. -/
def default_verts (host : Host F) (quad_info : gs_default_quad_info_t F) :
    List (gs_quad_batch_default_vert_t F) :=
  let transform := quad_info.transform
  let uv := quad_info.uv
  let color := quad_info.color
  let model := host.gs_vqs_to_mat4 transform
  let _tl : gs_vec3 F := ⟨-half, -half, 0⟩
  let _tr : gs_vec3 F := ⟨half, -half, 0⟩
  let _bl : gs_vec3 F := ⟨-half, half, 0⟩
  let _br : gs_vec3 F := ⟨half, half, 0⟩
  -- Top Left
  let position := gs_mat4_mul_vec4 model ⟨_tl.x, _tl.y, _tl.z, 1⟩
  let position := gs_vec4_scale position (1 / position.w)
  let tl : gs_quad_batch_default_vert_t F :=
    { position := ⟨position.x, position.y, position.z⟩, uv := ⟨uv.x, uv.y⟩, color := color }
  -- Top Right
  let position := gs_mat4_mul_vec4 model ⟨_tr.x, _tr.y, _tr.z, 1⟩
  let position := gs_vec4_scale position (1 / position.w)
  let tr : gs_quad_batch_default_vert_t F :=
    { position := ⟨position.x, position.y, position.z⟩, uv := ⟨uv.z, uv.y⟩, color := color }
  -- Bottom Left
  let position := gs_mat4_mul_vec4 model ⟨_bl.x, _bl.y, _bl.z, 1⟩
  let position := gs_vec4_scale position (1 / position.w)
  let bl : gs_quad_batch_default_vert_t F :=
    { position := ⟨position.x, position.y, position.z⟩, uv := ⟨uv.x, uv.w⟩, color := color }
  -- Bottom Right
  let position := gs_mat4_mul_vec4 model ⟨_br.x, _br.y, _br.z, 1⟩
  let position := gs_vec4_scale position (1 / position.w)
  let br : gs_quad_batch_default_vert_t F :=
    { position := ⟨position.x, position.y, position.z⟩, uv := ⟨uv.z, uv.w⟩, color := color }
  [tl, br, bl, tl, tr, br]

/-- The value of `sizeof(verts)` in `__gs_quad_batch_default_add`: six records. -/
def sizeof_verts : Nat := 6 * sizeof_gs_quad_batch_default_vert_t

/-- The default `add`, `__gs_quad_batch_default_add`. A null `quad_info_data` is
`none`; `gs_assert( false )` halts the program. -/
def __gs_quad_batch_default_add (host : Host F) (gfx : gs_graphics_i) (qb : gs_quad_batch_t)
    (quad_info_data : Option (gs_default_quad_info_t F)) (quad_info_data_size : Nat) :
    Halting gs_quad_batch_t :=
  match quad_info_data with
  | none => Except.error (Fault.assertion_failed, qb)
  | some quad_info =>
    let verts := default_verts host quad_info
    __gs_quad_batch_add_raw_vert_data gfx qb (verts_object host verts) sizeof_verts

end default_add

/-- The default `end`, `__gs_quad_batch_default_end`: one upload of the first
`size` bytes of the staging storage. -/
def __gs_quad_batch_default_end (gfx : gs_graphics_i) (batch : gs_quad_batch_t) :
    gs_graphics_i :=
  { gfx with calls := gfx.calls ++
      [gs_graphics_call.update_vertex_buffer_data batch.mesh.vbo
        (batch.raw_vertex_data.buffer.take batch.raw_vertex_data.size)
        batch.raw_vertex_data.size] }

/-- The default `free`, `__gs_quad_batch_default_free`. -/
def __gs_quad_batch_default_free (batch : gs_quad_batch_t) : gs_quad_batch_t :=
  { batch with raw_vertex_data := gs_byte_buffer_free batch.raw_vertex_data }

/-- The default `submit`, `__gs_quad_batch_default_submit`. -/
def __gs_quad_batch_default_submit (gfx : gs_graphics_i) (cb : gs_resource)
    (batch : gs_quad_batch_t) : gs_graphics_i :=
  { gfx with calls := gfx.calls ++
      [gs_graphics_call.bind_material_shader cb batch.material,
       gs_graphics_call.bind_material_uniforms cb batch.material,
       gs_graphics_call.bind_vertex_buffer cb batch.mesh.vbo,
       gs_graphics_call.draw cb 0 batch.mesh.vertex_count] }

/-! ## Configuration of the API object -/

/-- The loop of `__gs_quad_batch_i_set_layout`: `remaining` iterations from
index `i` on, each pushing entry `i` of the input array. Reading an entry the
array does not have halts. -/
def set_layout_loop (layout : List gs_vertex_attribute_type) :
    Nat → Nat → gs_quad_batch_i → Halting gs_quad_batch_i
  | 0, _, api => Except.ok api
  | remaining + 1, i, api =>
    match layout[i]? with
    | none => Except.error (Fault.out_of_bounds_read, api)
    | some t =>
      set_layout_loop layout remaining (i + 1)
        { api with vert_info := { layout := gs_dyn_array_push api.vert_info.layout t } }

/-- The layout setter `__gs_quad_batch_i_set_layout`. -/
def __gs_quad_batch_i_set_layout (api : gs_quad_batch_i)
    (layout : List gs_vertex_attribute_type) (layout_size : Nat) : Halting gs_quad_batch_i :=
  let api := { api with vert_info := { layout := gs_dyn_array_clear api.vert_info.layout } }
  let count := u32 (layout_size / sizeof_gs_vertex_attribute_type)
  set_layout_loop layout count 0 api

/-- The shader setter `__gs_quad_batch_i_set_shader`. -/
def __gs_quad_batch_i_set_shader (gfx : gs_graphics_i) (api : gs_quad_batch_i)
    (shader : gs_resource) : gs_quad_batch_i × gs_graphics_i :=
  ({ api with shader := shader },
   { gfx with calls := gfx.calls ++ [gs_graphics_call.free_shader api.shader] })

/-- The API constructor `__gs_quad_batch_i_new`. -/
def __gs_quad_batch_i_new : gs_quad_batch_i :=
  { new := fn_ptr.__gs_quad_batch_default_new,
    begin := fn_ptr.__gs_quad_batch_default_begin,
    «end» := fn_ptr.__gs_quad_batch_default_end,
    add := fn_ptr.__gs_quad_batch_default_add,
    submit := fn_ptr.__gs_quad_batch_default_submit,
    free := fn_ptr.__gs_quad_batch_default_free,
    set_layout := fn_ptr.__gs_quad_batch_i_set_layout,
    set_shader := fn_ptr.__gs_quad_batch_i_set_shader,
    shader := 0,
    vert_info :=
      { layout := gs_dyn_array_push (gs_dyn_array_push (gs_dyn_array_push []
          gs_vertex_attribute_float3) gs_vertex_attribute_float2) gs_vertex_attribute_float4 } }

/-! ## Derived notions used by the statements -/

/-- The vertex stride in bytes derived from the layout the API object holds
now, as `__gs_quad_batch_add_raw_vert_data` computes it. -/
def vertex_stride (gfx : gs_graphics_i) : Nat :=
  calculate_vertex_size_in_bytes gfx.quad_batch_i.vert_info.layout
    (gs_dyn_array_size gfx.quad_batch_i.vert_info.layout)

/-- The logical content of the staging buffer: the first `size` bytes of its
storage, which is what `end` uploads. -/
def staged (qb : gs_quad_batch_t) : List Byte :=
  qb.raw_vertex_data.buffer.take qb.raw_vertex_data.size

section sequences

variable {F : Type} [Zero F] [One F] [Neg F] [Add F] [Mul F] [Div F]

/-- The bytes the default add stages for a quad: the object representation of
its six-record array `verts`. -/
def enc (host : Host F) (quad_info : gs_default_quad_info_t F) : List Byte :=
  verts_object host (default_verts host quad_info)

/-- The default add called once per entry of `calls`, in order, each entry
giving the quad pointed to and the size argument; the run stops at the first
call that halts. -/
def default_add_seq (host : Host F) (gfx : gs_graphics_i) :
    gs_quad_batch_t → List (gs_default_quad_info_t F × Nat) → Halting gs_quad_batch_t
  | qb, [] => Except.ok qb
  | qb, (quad_info, size) :: rest =>
    match __gs_quad_batch_default_add host gfx qb (some quad_info) size with
    | Except.error e => Except.error e
    | Except.ok qb' => default_add_seq host gfx qb' rest

end sequences

/-! ## The corners of the default quad, as the statements name them -/

/-- The four corners of a quad. -/
inductive Corner where
  | TL
  | TR
  | BL
  | BR
  deriving DecidableEq, Repr

/-- The order in which the two triangles list the corners. -/
def emitted_order : List Corner :=
  [Corner.TL, Corner.BR, Corner.BL, Corner.TL, Corner.TR, Corner.BR]

section corners

variable {F : Type}

/-- The local position of a corner of the unit quad centred at the origin. -/
def Corner.local_position [Zero F] [One F] [Neg F] [Add F] [Div F] : Corner → gs_vec3 F
  | Corner.TL => ⟨-half, -half, 0⟩
  | Corner.TR => ⟨half, -half, 0⟩
  | Corner.BL => ⟨-half, half, 0⟩
  | Corner.BR => ⟨half, half, 0⟩

/-- The uv of a corner in a uv rectangle read as `(u_min, v_min, u_max, v_max)`. -/
def Corner.uv (uv : gs_vec4 F) : Corner → gs_vec2 F
  | Corner.TL => ⟨uv.x, uv.y⟩
  | Corner.TR => ⟨uv.z, uv.y⟩
  | Corner.BL => ⟨uv.x, uv.w⟩
  | Corner.BR => ⟨uv.z, uv.w⟩

/-- The position the code computes for a local corner: the homogeneous
product with the model matrix, scaled by the reciprocal of its `w`. -/
def scaled_by_reciprocal_w [One F] [Add F] [Mul F] [Div F] (model : gs_mat4 F)
    (c : gs_vec3 F) : gs_vec3 F :=
  let p := gs_mat4_mul_vec4 model ⟨c.x, c.y, c.z, 1⟩
  ⟨p.x * (1 / p.w), p.y * (1 / p.w), p.z * (1 / p.w)⟩

/-- The vertex record of a corner of a quad: its position, its uv in the
quad's uv rectangle, the quad's color. -/
def corner_record [Zero F] [One F] [Neg F] [Add F] [Mul F] [Div F] (host : Host F)
    (quad_info : gs_default_quad_info_t F) (c : Corner) : gs_quad_batch_default_vert_t F :=
  { position := scaled_by_reciprocal_w (host.gs_vqs_to_mat4 quad_info.transform) c.local_position,
    uv := c.uv quad_info.uv,
    color := quad_info.color }

end corners

/-! ## Concrete inputs -/

/-- A host over the rationals: every `float` is represented by zero bytes and
every transform composes into the identity matrix. -/
def example_host : Host ℚ :=
  { float_bytes := fun _ _ => 0, gs_vqs_to_mat4 := fun _ => gs_mat4_identity }

/-- The quad with the identity transform, uv `(0, 0, 1, 1)` and color `(1, 1, 1, 1)`. -/
def unit_quad : gs_default_quad_info_t ℚ :=
  { transform := { position := ⟨0, 0, 0⟩, rotation := ⟨0, 0, 0, 1⟩, scale := ⟨1, 1, 1⟩ },
    uv := ⟨0, 0, 1, 1⟩,
    color := ⟨1, 1, 1, 1⟩ }

/-- The device right after `__gs_quad_batch_i_new`: the default layout, no call yet. -/
def default_gfx : gs_graphics_i := { quad_batch_i := __gs_quad_batch_i_new, calls := [] }

/-- The API object with the given layout, everything else as constructed. -/
def api_with_layout (layout : List gs_vertex_attribute_type) : gs_quad_batch_i :=
  { __gs_quad_batch_i_new with vert_info := { layout := layout } }

/-- A batch that went through a cycle before: three bytes staged, one byte of
retained storage after them, five vertices counted. -/
def used_batch : gs_quad_batch_t :=
  { raw_vertex_data := { content := [1, 2, 3], slack := [4] },
    mesh := { vbo := 0, vertex_count := 5 },
    material := 1 }

/-- The device once the API object it points to has become `api`: the layout
setter changes the API object in place. -/
def with_api (gfx : gs_graphics_i) (api : gs_quad_batch_i) : gs_graphics_i :=
  { gfx with quad_batch_i := api }

/-! ## Auxiliary facts -/

section aux

variable {F : Type}

theorem length_float_object (host : Host F) (f : F) : (float_object host f).length = 4 := by
  simp [float_object]

theorem length_vert_object (host : Host F) (v : gs_quad_batch_default_vert_t F) :
    (gs_quad_batch_default_vert_object host v).length = sizeof_gs_quad_batch_default_vert_t := by
  simp [gs_quad_batch_default_vert_object, gs_vec3_object, gs_vec2_object, gs_vec4_object,
    length_float_object, sizeof_gs_quad_batch_default_vert_t]

theorem length_verts_object (host : Host F) (verts : List (gs_quad_batch_default_vert_t F)) :
    (verts_object host verts).length = sizeof_gs_quad_batch_default_vert_t * verts.length := by
  induction verts with
  | nil => simp [verts_object]
  | cons v vs ih =>
    simp only [verts_object, List.map_cons, List.flatten_cons, List.length_append,
      List.length_cons] at ih ⊢
    rw [ih, length_vert_object]
    ring

theorem buffer_take_size (b : gs_byte_buffer) : b.buffer.take b.size = b.content := by
  simp [gs_byte_buffer.buffer, gs_byte_buffer.size]

theorem staged_eq_content (qb : gs_quad_batch_t) : staged qb = qb.raw_vertex_data.content :=
  buffer_take_size qb.raw_vertex_data

theorem u32_of_lt {n : Nat} (h : n < 2 ^ 32) : u32 n = n := Nat.mod_eq_of_lt h

/-- What the raw append does when it does not halt. -/
theorem add_raw_vert_data_ok (gfx : gs_graphics_i) (qb : gs_quad_batch_t) (data : List Byte)
    (data_size : Nat) (hs : vertex_stride gfx ≠ 0) (hd : data_size ≤ data.length) :
    __gs_quad_batch_add_raw_vert_data gfx qb data data_size = Except.ok
      { raw_vertex_data :=
          { content := qb.raw_vertex_data.content ++ data.take data_size,
            slack := qb.raw_vertex_data.slack.drop data_size },
        mesh := { vbo := qb.mesh.vbo,
                  vertex_count := qb.mesh.vertex_count + u32 (data_size / vertex_stride gfx) },
        material := qb.material } := by
  unfold vertex_stride at hs
  simp [__gs_quad_batch_add_raw_vert_data, gs_byte_buffer_bulk_write, hs, hd, vertex_stride]

/-- The raw append halts on a zero stride, before anything is written. -/
theorem add_raw_vert_data_zero_stride (gfx : gs_graphics_i) (qb : gs_quad_batch_t)
    (data : List Byte) (data_size : Nat) (hs : vertex_stride gfx = 0) :
    __gs_quad_batch_add_raw_vert_data gfx qb data data_size
      = Except.error (Fault.division_by_zero, qb) := by
  unfold vertex_stride at hs
  simp [__gs_quad_batch_add_raw_vert_data, hs]

end aux

section aux_add

variable {F : Type} [Zero F] [One F] [Neg F] [Add F] [Mul F] [Div F]

theorem length_default_verts (host : Host F) (q : gs_default_quad_info_t F) :
    (default_verts host q).length = 6 := by
  simp [default_verts]

theorem length_enc (host : Host F) (q : gs_default_quad_info_t F) :
    (enc host q).length = sizeof_verts := by
  simp [enc, length_verts_object, length_default_verts, sizeof_verts, Nat.mul_comm]

/-- What the default add does for a non-null input under a non-zero stride. -/
theorem default_add_ok (host : Host F) (gfx : gs_graphics_i) (qb : gs_quad_batch_t)
    (q : gs_default_quad_info_t F) (n : Nat) (hs : vertex_stride gfx ≠ 0) :
    __gs_quad_batch_default_add host gfx qb (some q) n = Except.ok
      { raw_vertex_data :=
          { content := qb.raw_vertex_data.content ++ enc host q,
            slack := qb.raw_vertex_data.slack.drop sizeof_verts },
        mesh := { vbo := qb.mesh.vbo,
                  vertex_count := qb.mesh.vertex_count + sizeof_verts / vertex_stride gfx },
        material := qb.material } := by
  have hlen := length_enc host q
  have hu : u32 (sizeof_verts / vertex_stride gfx) = sizeof_verts / vertex_stride gfx := by
    apply u32_of_lt
    have : sizeof_verts / vertex_stride gfx ≤ sizeof_verts := Nat.div_le_self _ _
    have h216 : sizeof_verts = 216 := rfl
    omega
  unfold __gs_quad_batch_default_add
  simp only []
  rw [add_raw_vert_data_ok gfx qb _ _ hs (by unfold enc at hlen; omega)]
  unfold enc at hlen
  rw [hu, ← hlen, List.take_length]
  rfl

/-- The state a run of default adds reaches under a non-zero stride. -/
theorem default_add_seq_ok (host : Host F) (gfx : gs_graphics_i)
    (calls : List (gs_default_quad_info_t F × Nat)) (hs : vertex_stride gfx ≠ 0) :
    ∀ qb : gs_quad_batch_t, default_add_seq host gfx qb calls = Except.ok
      { raw_vertex_data :=
          { content := qb.raw_vertex_data.content
              ++ (calls.map (fun c => enc host c.1)).flatten,
            slack := qb.raw_vertex_data.slack.drop (sizeof_verts * calls.length) },
        mesh := { vbo := qb.mesh.vbo,
                  vertex_count := qb.mesh.vertex_count
                    + sizeof_verts / vertex_stride gfx * calls.length },
        material := qb.material } := by
  induction calls with
  | nil => intro qb; simp [default_add_seq]
  | cons c rest ih =>
    intro qb
    obtain ⟨q, n⟩ := c
    simp only [default_add_seq, default_add_ok host gfx qb q n hs, ih]
    simp only [List.map_cons, List.flatten_cons, List.append_assoc, List.length_cons,
      List.drop_drop]
    congr 3
    · ring_nf
    · ring

end aux_add

section more_aux

variable {F : Type} [Zero F] [One F] [Neg F] [Add F] [Mul F] [Div F]

theorem default_add_zero_stride (host : Host F) (gfx : gs_graphics_i) (qb : gs_quad_batch_t)
    (q : gs_default_quad_info_t F) (n : Nat) (hs : vertex_stride gfx = 0) :
    __gs_quad_batch_default_add host gfx qb (some q) n
      = Except.error (Fault.division_by_zero, qb) := by
  unfold __gs_quad_batch_default_add
  exact add_raw_vert_data_zero_stride gfx qb _ _ hs

theorem vertex_stride_default (gfx : gs_graphics_i)
    (hl : gfx.quad_batch_i.vert_info.layout = __gs_quad_batch_i_new.vert_info.layout) :
    vertex_stride gfx = 36 := by
  unfold vertex_stride
  rw [hl]
  rfl

theorem staged_begin (qb0 : gs_quad_batch_t) : staged (__gs_quad_batch_default_begin qb0) = [] := by
  simp [staged_eq_content, __gs_quad_batch_default_begin, gs_byte_buffer_clear]

end more_aux

theorem length_flatten_enc {F : Type} [Zero F] [One F] [Neg F] [Add F] [Mul F] [Div F]
    (host : Host F) (cs : List (gs_default_quad_info_t F × Nat)) :
    ((cs.map (fun c => enc host c.1)).flatten).length = sizeof_verts * cs.length := by
  induction cs with
  | nil => simp
  | cons c cs ih =>
    simp only [List.map_cons, List.flatten_cons, List.length_append, List.length_cons, ih,
      length_enc]
    ring

section claims_1_3

variable {F : Type} [Zero F] [One F] [Neg F] [Add F] [Mul F] [Div F]

/-- C1 (as amended). Under a layout of non-zero stride, after `begin` and any
number `k` of default adds the run has completed, the logical size of the
staging buffer is `216 * k` (`sizeof(verts)` per add) and the vertex count is
`(216 / stride) * k`; so the size equals vertex count times stride after each
call exactly when no add was made yet or the stride divides `216`. -/
theorem C1_size_is_count_times_stride_iff (host : Host F) (gfx : gs_graphics_i)
    (qb0 : gs_quad_batch_t) (calls : List (gs_default_quad_info_t F × Nat)) (k : Nat)
    (hs : vertex_stride gfx ≠ 0) :
    ∃ qb, default_add_seq host gfx (__gs_quad_batch_default_begin qb0) (calls.take k)
        = Except.ok qb
      ∧ qb.raw_vertex_data.size = sizeof_verts * (calls.take k).length
      ∧ qb.mesh.vertex_count = sizeof_verts / vertex_stride gfx * (calls.take k).length
      ∧ (qb.raw_vertex_data.size = qb.mesh.vertex_count * vertex_stride gfx
          ↔ (calls.take k).length = 0 ∨ vertex_stride gfx ∣ sizeof_verts) := by
  refine ⟨_, default_add_seq_ok host gfx (calls.take k) hs _, ?_, ?_, ?_⟩
  · show List.length (_ ++ _) = _
    rw [List.length_append, length_flatten_enc]
    simp [__gs_quad_batch_default_begin, gs_byte_buffer_clear]
  · simp [__gs_quad_batch_default_begin]
  · show List.length (_ ++ _) = (_ + _) * _ ↔ _
    rw [List.length_append, length_flatten_enc]
    simp only [__gs_quad_batch_default_begin, gs_byte_buffer_clear, List.length_nil, Nat.zero_add]
    generalize (calls.take k).length = n
    generalize vertex_stride gfx = s at hs ⊢
    constructor
    · intro h
      rcases Nat.eq_zero_or_pos n with hn | hn
      · exact Or.inl hn
      · right
        have h2 : sizeof_verts = sizeof_verts / s * s := by
          have h3 : n * sizeof_verts = n * (sizeof_verts / s * s) := by
            rw [Nat.mul_comm n sizeof_verts, h]; ring
          exact Nat.eq_of_mul_eq_mul_left hn h3
        exact Dvd.intro_left _ h2.symm
    · rintro (hn | hd)
      · simp [hn]
      · have := Nat.div_mul_cancel hd
        calc sizeof_verts * n = sizeof_verts / s * s * n := by rw [this]
          _ = sizeof_verts / s * n * s := by ring

/-- C1, witness: the default layout (stride 36, which divides 216), a batch used
before, two adds. -/
theorem C1_size_is_count_times_stride_iff_witness :
    vertex_stride default_gfx ≠ 0 ∧
    ∃ qb, default_add_seq example_host default_gfx (__gs_quad_batch_default_begin used_batch)
          ([(unit_quad, 72), (unit_quad, 0)].take 2) = Except.ok qb
      ∧ qb.raw_vertex_data.size = sizeof_verts * ([(unit_quad, 72), (unit_quad, 0)].take 2).length
      ∧ qb.mesh.vertex_count
          = sizeof_verts / vertex_stride default_gfx * ([(unit_quad, 72), (unit_quad, 0)].take 2).length
      ∧ (qb.raw_vertex_data.size = qb.mesh.vertex_count * vertex_stride default_gfx
          ↔ ([(unit_quad, 72), (unit_quad, 0)].take 2).length = 0
            ∨ vertex_stride default_gfx ∣ sizeof_verts) :=
  ⟨by decide, C1_size_is_count_times_stride_iff example_host default_gfx used_batch
    [(unit_quad, 72), (unit_quad, 0)] 2 (by decide)⟩

/-- C1, counterexample: `set_layout` installs the one-attribute layout
`{float4}` (stride 16); after `begin` and one default add the logical size is
216 and the vertex count is 13, and `13 * 16 = 208` is not 216. -/
theorem C1_counterexample :
    __gs_quad_batch_i_set_layout __gs_quad_batch_i_new [gs_vertex_attribute_float4] 4
      = Except.ok (api_with_layout [gs_vertex_attribute_float4])
    ∧ vertex_stride (with_api default_gfx (api_with_layout [gs_vertex_attribute_float4])) = 16
    ∧ ∃ qb, default_add_seq example_host
          (with_api default_gfx (api_with_layout [gs_vertex_attribute_float4]))
          (__gs_quad_batch_default_begin used_batch) [(unit_quad, 72)] = Except.ok qb
        ∧ qb.raw_vertex_data.size = 216
        ∧ qb.mesh.vertex_count = 13
        ∧ qb.raw_vertex_data.size ≠ qb.mesh.vertex_count
            * vertex_stride (with_api default_gfx (api_with_layout [gs_vertex_attribute_float4])) := by
  refine ⟨by rfl, by decide, _, default_add_seq_ok example_host _ [(unit_quad, 72)] (by decide) _,
    ?_, ?_, ?_⟩
  · show List.length (_ ++ _) = _
    rw [List.length_append, length_flatten_enc]
    rfl
  · rfl
  · show List.length (_ ++ _) ≠ _
    rw [List.length_append, length_flatten_enc]
    decide

/-- C2. Under the default layout `{float3, float2, float4}`, `begin` followed by
`N` default adds completes and leaves `mesh.vertex_count` equal to `6 * N`; and
`begin` followed by `end` uploads a zero-length buffer, after which `submit`
binds the material and the vertex buffer and issues `draw(cb, 0, 0)`. -/
theorem C2_six_vertices_per_quad (host : Host F) (gfx : gs_graphics_i) (qb0 : gs_quad_batch_t)
    (calls : List (gs_default_quad_info_t F × Nat)) (cb : gs_resource)
    (hl : gfx.quad_batch_i.vert_info.layout = __gs_quad_batch_i_new.vert_info.layout) :
    (∃ qb, default_add_seq host gfx (__gs_quad_batch_default_begin qb0) calls = Except.ok qb
      ∧ qb.mesh.vertex_count = 6 * calls.length)
    ∧ (__gs_quad_batch_default_end gfx (__gs_quad_batch_default_begin qb0)).calls
        = gfx.calls ++ [gs_graphics_call.update_vertex_buffer_data qb0.mesh.vbo [] 0]
    ∧ (__gs_quad_batch_default_submit
          (__gs_quad_batch_default_end gfx (__gs_quad_batch_default_begin qb0)) cb
          (__gs_quad_batch_default_begin qb0)).calls
        = gfx.calls ++ [gs_graphics_call.update_vertex_buffer_data qb0.mesh.vbo [] 0,
            gs_graphics_call.bind_material_shader cb qb0.material,
            gs_graphics_call.bind_material_uniforms cb qb0.material,
            gs_graphics_call.bind_vertex_buffer cb qb0.mesh.vbo,
            gs_graphics_call.draw cb 0 0] := by
  have h36 := vertex_stride_default gfx hl
  refine ⟨⟨_, default_add_seq_ok host gfx calls (by omega) _, ?_⟩, ?_, ?_⟩
  · simp [__gs_quad_batch_default_begin, h36, sizeof_verts, sizeof_gs_quad_batch_default_vert_t]
  · simp [__gs_quad_batch_default_end, __gs_quad_batch_default_begin, gs_byte_buffer_clear,
      gs_byte_buffer.size]
  · simp [__gs_quad_batch_default_submit, __gs_quad_batch_default_end,
      __gs_quad_batch_default_begin, gs_byte_buffer_clear, gs_byte_buffer.size]

/-- C2, witness: the device as constructed, a batch used before, three adds. -/
theorem C2_six_vertices_per_quad_witness :
    default_gfx.quad_batch_i.vert_info.layout = __gs_quad_batch_i_new.vert_info.layout
    ∧ (∃ qb, default_add_seq example_host default_gfx (__gs_quad_batch_default_begin used_batch)
          [(unit_quad, 72), (unit_quad, 72), (unit_quad, 72)] = Except.ok qb
        ∧ qb.mesh.vertex_count = 6 * 3) :=
  ⟨rfl, (C2_six_vertices_per_quad example_host default_gfx used_batch
    [(unit_quad, 72), (unit_quad, 72), (unit_quad, 72)] 0 rfl).1⟩

/-- C3. `begin` leaves no staged byte; a run of default adds after `begin`
completes whenever the stride is not zero; whenever it completes, the logical
content of the staging buffer is `enc q1 ++ ... ++ enc qN`, whatever the batch
held before the `begin`; and every default add that completes leaves the bytes
staged before it in place and appends `enc q` after them. -/
theorem C3_staged_bytes_in_add_order (host : Host F) (gfx : gs_graphics_i)
    (qb0 : gs_quad_batch_t) (calls : List (gs_default_quad_info_t F × Nat)) :
    staged (__gs_quad_batch_default_begin qb0) = []
    ∧ (vertex_stride gfx ≠ 0 →
        ∃ qb, default_add_seq host gfx (__gs_quad_batch_default_begin qb0) calls = Except.ok qb)
    ∧ (∀ qb, default_add_seq host gfx (__gs_quad_batch_default_begin qb0) calls = Except.ok qb →
        staged qb = (calls.map (fun c => enc host c.1)).flatten)
    ∧ (∀ (qb qb' : gs_quad_batch_t) (q : gs_default_quad_info_t F) (n : Nat),
        __gs_quad_batch_default_add host gfx qb (some q) n = Except.ok qb' →
        staged qb' = staged qb ++ enc host q) := by
  refine ⟨staged_begin qb0, fun hs => ⟨_, default_add_seq_ok host gfx calls hs _⟩, ?_, ?_⟩
  · intro qb h
    by_cases hs : vertex_stride gfx = 0
    · cases calls with
      | nil =>
        simp only [default_add_seq, Except.ok.injEq] at h
        subst h
        simpa using staged_begin qb0
      | cons c rest =>
        obtain ⟨q, n⟩ := c
        simp [default_add_seq, default_add_zero_stride host gfx _ q n hs] at h
    · rw [default_add_seq_ok host gfx calls hs] at h
      simp only [Except.ok.injEq] at h
      subst h
      simp [staged_eq_content, __gs_quad_batch_default_begin, gs_byte_buffer_clear]
  · intro qb qb' q n h
    by_cases hs : vertex_stride gfx = 0
    · simp [default_add_zero_stride host gfx qb q n hs] at h
    · rw [default_add_ok host gfx qb q n hs] at h
      simp only [Except.ok.injEq] at h
      subst h
      simp [staged_eq_content]

/-- C3, witness: under the default layout the run over two quads completes, and
its staged bytes are the two encodings in order, none of the three bytes the
batch held before. -/
theorem C3_staged_bytes_in_add_order_witness :
    vertex_stride default_gfx ≠ 0
    ∧ ∃ qb, default_add_seq example_host default_gfx (__gs_quad_batch_default_begin used_batch)
          [(unit_quad, 72), (unit_quad, 1)] = Except.ok qb
        ∧ staged qb = enc example_host unit_quad ++ enc example_host unit_quad := by
  have h := C3_staged_bytes_in_add_order example_host default_gfx used_batch
    [(unit_quad, 72), (unit_quad, 1)]
  obtain ⟨qb, hqb⟩ := h.2.1 (by decide)
  exact ⟨by decide, qb, hqb, by simpa using h.2.2.1 qb hqb⟩

end claims_1_3

section claims_4_5

/-- C4. For every quad, the array the default add builds is the six vertex
records of the corners TL, BR, BL, TL, TR, BR in this order, the record of a
corner carrying the uv of that corner in the quad's uv rectangle (TL = (x, y),
TR = (z, y), BL = (x, w), BR = (z, w)) and the quad's color; a default add
that completes appends exactly the bytes of these six records; and the uv
rectangle `(0, 0, 1, 1)` gives TL = (0, 0), TR = (1, 0), BL = (0, 1),
BR = (1, 1). -/
theorem C4_six_records_uv_and_color {F : Type} [Zero F] [One F] [Neg F] [Add F] [Mul F] [Div F]
    (host : Host F) (quad_info : gs_default_quad_info_t F) :
    default_verts host quad_info = emitted_order.map (corner_record host quad_info)
    ∧ (default_verts host quad_info).length = 6
    ∧ (default_verts host quad_info).map (fun v => v.uv)
        = [⟨quad_info.uv.x, quad_info.uv.y⟩, ⟨quad_info.uv.z, quad_info.uv.w⟩,
           ⟨quad_info.uv.x, quad_info.uv.w⟩, ⟨quad_info.uv.x, quad_info.uv.y⟩,
           ⟨quad_info.uv.z, quad_info.uv.y⟩, ⟨quad_info.uv.z, quad_info.uv.w⟩]
    ∧ (default_verts host quad_info).map (fun v => v.color) = List.replicate 6 quad_info.color
    ∧ (∀ (gfx : gs_graphics_i) (qb qb' : gs_quad_batch_t) (n : Nat),
        __gs_quad_batch_default_add host gfx qb (some quad_info) n = Except.ok qb' →
        staged qb' = staged qb
          ++ verts_object host (emitted_order.map (corner_record host quad_info)))
    ∧ (Corner.uv (⟨0, 0, 1, 1⟩ : gs_vec4 F) Corner.TL = ⟨0, 0⟩
        ∧ Corner.uv (⟨0, 0, 1, 1⟩ : gs_vec4 F) Corner.TR = ⟨1, 0⟩
        ∧ Corner.uv (⟨0, 0, 1, 1⟩ : gs_vec4 F) Corner.BL = ⟨0, 1⟩
        ∧ Corner.uv (⟨0, 0, 1, 1⟩ : gs_vec4 F) Corner.BR = ⟨1, 1⟩) := by
  have hv : default_verts host quad_info = emitted_order.map (corner_record host quad_info) := rfl
  refine ⟨hv, rfl, rfl, rfl, ?_, rfl, rfl, rfl, rfl⟩
  intro gfx qb qb' n h
  by_cases hs : vertex_stride gfx = 0
  · simp [default_add_zero_stride host gfx qb quad_info n hs] at h
  · rw [default_add_ok host gfx qb quad_info n hs] at h
    simp only [Except.ok.injEq] at h
    subst h
    simp [staged_eq_content, enc, hv]

/-- C4, witness: the unit quad under the default layout; the add completes and
stages the six records. -/
theorem C4_six_records_uv_and_color_witness :
    ∃ qb', __gs_quad_batch_default_add example_host default_gfx used_batch (some unit_quad) 72
        = Except.ok qb'
      ∧ staged qb' = staged used_batch
          ++ verts_object example_host (emitted_order.map (corner_record example_host unit_quad)) :=
  ⟨_, default_add_ok example_host default_gfx used_batch unit_quad 72 (by decide),
    (C4_six_records_uv_and_color example_host unit_quad).2.2.2.2.1 default_gfx used_batch _ 72
      (default_add_ok example_host default_gfx used_batch unit_quad 72 (by decide))⟩

set_option maxRecDepth 100000

end claims_4_5

/-- When the quotient of the size by the stride is `2 ^ 32`, the raw append
leaves the vertex count as it was. -/
theorem add_raw_vert_data_count_wraps (gfx : gs_graphics_i) (qb : gs_quad_batch_t)
    (data : List Byte) (hs : vertex_stride gfx ≠ 0)
    (hq : data.length / vertex_stride gfx = 2 ^ 32) :
    ∃ qb', __gs_quad_batch_add_raw_vert_data gfx qb data data.length = Except.ok qb'
      ∧ qb'.mesh.vertex_count = qb.mesh.vertex_count
      ∧ qb'.mesh.vertex_count ≠ qb.mesh.vertex_count + data.length / vertex_stride gfx := by
  refine ⟨_, add_raw_vert_data_ok gfx qb data data.length hs (le_refl _), ?_, ?_⟩
  · show _ + u32 _ = _
    rw [hq]
    rfl
  · show _ + u32 _ ≠ _
    rw [hq]
    simp [u32]

section claim_6

/-- C6 (as amended). Under a stride `s > 0`, the raw append of a byte span of
`data_size` bytes completes, appends all the bytes after the bytes staged
before (the logical size grows by exactly `data_size`, a multiple of `s` or
not), leaves the vertex buffer handle and the material alone, and increases
`mesh.vertex_count` by `floor(data_size / s)` narrowed to `u32`, that is by
`floor(data_size / s) mod 2 ^ 32`: by exactly `floor(data_size / s)` whenever
this quotient is below `2 ^ 32`. -/
theorem C6_raw_append (gfx : gs_graphics_i) (qb : gs_quad_batch_t) (data : List Byte)
    (hs : 0 < vertex_stride gfx) :
    ∃ qb', __gs_quad_batch_add_raw_vert_data gfx qb data data.length = Except.ok qb'
      ∧ staged qb' = staged qb ++ data
      ∧ qb'.raw_vertex_data.size = qb.raw_vertex_data.size + data.length
      ∧ qb'.mesh.vertex_count
          = qb.mesh.vertex_count + data.length / vertex_stride gfx % 2 ^ 32
      ∧ (data.length / vertex_stride gfx < 2 ^ 32 →
          qb'.mesh.vertex_count = qb.mesh.vertex_count + data.length / vertex_stride gfx)
      ∧ qb'.mesh.vbo = qb.mesh.vbo
      ∧ qb'.material = qb.material := by
  refine ⟨_, add_raw_vert_data_ok gfx qb data data.length (by omega) (le_refl _),
    ?_, ?_, rfl, ?_, rfl, rfl⟩
  · simp [staged_eq_content]
  · simp [gs_byte_buffer.size]
  · intro h
    show _ + u32 _ = _
    rw [u32_of_lt h]

/-- C6, witness: ten bytes appended to a used batch under the default layout
(stride 36): all ten are staged and the count grows by `10 / 36 = 0`. -/
theorem C6_raw_append_witness :
    0 < vertex_stride default_gfx
    ∧ ∃ qb', __gs_quad_batch_add_raw_vert_data default_gfx used_batch
          [0, 1, 2, 3, 4, 5, 6, 7, 8, 9] 10 = Except.ok qb'
        ∧ staged qb' = [1, 2, 3, 0, 1, 2, 3, 4, 5, 6, 7, 8, 9]
        ∧ qb'.mesh.vertex_count = 5 := by
  obtain ⟨qb', h1, h2, _, _, h5, _⟩ :=
    C6_raw_append default_gfx used_batch [0, 1, 2, 3, 4, 5, 6, 7, 8, 9] (by decide)
  exact ⟨by decide, qb', h1, h2, h5 (by decide)⟩

/-- C6, counterexample: under the default layout (stride 36) a span of
`36 * 2 ^ 32` bytes is appended whole, but `mesh.vertex_count` stays as it was:
the quotient `2 ^ 32` does not fit the `u32` variable `vert_count`. -/
theorem C6_counterexample :
    vertex_stride default_gfx = 36
    ∧ (List.replicate (36 * 2 ^ 32) (0 : Byte)).length / vertex_stride default_gfx = 2 ^ 32
    ∧ ∃ qb', __gs_quad_batch_add_raw_vert_data default_gfx used_batch
          (List.replicate (36 * 2 ^ 32) 0) (List.replicate (36 * 2 ^ 32) (0 : Byte)).length
          = Except.ok qb'
        ∧ qb'.mesh.vertex_count = used_batch.mesh.vertex_count
        ∧ qb'.mesh.vertex_count ≠ used_batch.mesh.vertex_count
            + (List.replicate (36 * 2 ^ 32) (0 : Byte)).length / vertex_stride default_gfx :=
  have h36 : vertex_stride default_gfx = 36 := by decide
  have hq : (List.replicate (36 * 2 ^ 32) (0 : Byte)).length / vertex_stride default_gfx
      = 2 ^ 32 := by
    rw [List.length_replicate, h36]
    exact Nat.mul_div_cancel_left _ (by decide)
  ⟨h36, hq, add_raw_vert_data_count_wraps default_gfx used_batch _ (by decide) hq⟩

end claim_6

/-- The loop of the layout setter pushes the next `remaining` entries of the
input, in order, when the input has them. -/
theorem set_layout_loop_ok (layout : List gs_vertex_attribute_type) :
    ∀ (remaining i : Nat) (api : gs_quad_batch_i), i + remaining ≤ layout.length →
      set_layout_loop layout remaining i api = Except.ok
        { api with vert_info :=
            { layout := api.vert_info.layout ++ (layout.drop i).take remaining } } := by
  intro remaining
  induction remaining with
  | zero => intro i api _; simp [set_layout_loop]
  | succ r ih =>
    intro i api h
    have hi : i < layout.length := by omega
    have hget : layout[i]? = some layout[i] := List.getElem?_eq_getElem hi
    simp only [set_layout_loop, hget]
    rw [ih (i + 1) _ (by omega)]
    have hd : layout.drop i = layout[i] :: layout.drop (i + 1) := List.drop_eq_getElem_cons hi
    rw [hd, List.take_succ_cons]
    simp only [gs_dyn_array_push, List.append_assoc, List.singleton_append]

/-- What the layout setter does when the input array has the entries it reads. -/
theorem set_layout_ok (api : gs_quad_batch_i) (layout : List gs_vertex_attribute_type)
    (layout_size : Nat)
    (h : u32 (layout_size / sizeof_gs_vertex_attribute_type) ≤ layout.length) :
    __gs_quad_batch_i_set_layout api layout layout_size = Except.ok
      { api with vert_info :=
          { layout := layout.take (u32 (layout_size / sizeof_gs_vertex_attribute_type)) } } := by
  unfold __gs_quad_batch_i_set_layout
  simp only []
  rw [set_layout_loop_ok layout _ 0 _ (by omega)]
  simp [gs_dyn_array_clear]

theorem u32_le (n : Nat) : u32 n ≤ n := Nat.mod_le _ _

theorem vertex_stride_pos_of_layout_ne_nil (gfx : gs_graphics_i)
    (h : gfx.quad_batch_i.vert_info.layout ≠ []) : 0 < vertex_stride gfx := by
  unfold vertex_stride calculate_vertex_size_in_bytes gs_dyn_array_size
  rw [List.take_length]
  cases hl : gfx.quad_batch_i.vert_info.layout with
  | nil => exact absurd hl h
  | cons t ts =>
    have : 0 < gs_vertex_attribute_byte_size t := by cases t <;> decide
    simp only [List.map_cons, List.sum_cons]
    omega

theorem vertex_stride_with_api (gfx : gs_graphics_i) (api : gs_quad_batch_i) :
    vertex_stride (with_api gfx api)
      = calculate_vertex_size_in_bytes api.vert_info.layout
          (gs_dyn_array_size api.vert_info.layout) := rfl

section claim_7

variable {F : Type} [Zero F] [One F] [Neg F] [Add F] [Mul F] [Div F]

/-- C7 (as amended). A batch keeps no layout and no stride. Let a batch be
constructed under a layout L1, and let `set_layout` then be called with an input
array that holds the entries it reads: it completes and installs a layout L2.
If the stride of L2 is not zero, every later add, on any batch `qb` (the one
constructed before, in whatever state, or one constructed after), counts
vertices with the stride of L2, the layout configured at the time of the add:
a raw append of `data_size` bytes adds `floor(data_size / stride L2)` narrowed
to `u32`, a default add adds `floor(216 / stride L2)`. Only the device vertex
buffer keeps the layout of construction time: the earlier batch had it
constructed with L1, a batch constructed after the change has it constructed
with L2. -/
theorem C7_adds_count_with_the_current_layout (host : Host F) (gfx : gs_graphics_i)
    (mat mat' : gs_resource) (layout2 : List gs_vertex_attribute_type) (layout_size : Nat)
    (qb : gs_quad_batch_t) (data : List Byte) (q : gs_default_quad_info_t F) (n : Nat)
    (hin : layout_size / sizeof_gs_vertex_attribute_type ≤ layout2.length) :
    (__gs_quad_batch_default_new gfx mat).2.calls = gfx.calls ++
        [gs_graphics_call.construct_vertex_buffer gfx.quad_batch_i.vert_info.layout
          (gs_dyn_array_size gfx.quad_batch_i.vert_info.layout) [] 0]
    ∧ ∃ api2, __gs_quad_batch_i_set_layout (__gs_quad_batch_default_new gfx mat).2.quad_batch_i
          layout2 layout_size = Except.ok api2
      ∧ api2.vert_info.layout
          = layout2.take (u32 (layout_size / sizeof_gs_vertex_attribute_type))
      ∧ (__gs_quad_batch_default_new
            (with_api (__gs_quad_batch_default_new gfx mat).2 api2) mat').2.calls
          = (__gs_quad_batch_default_new gfx mat).2.calls ++
            [gs_graphics_call.construct_vertex_buffer api2.vert_info.layout
              (gs_dyn_array_size api2.vert_info.layout) [] 0]
      ∧ vertex_stride (with_api (__gs_quad_batch_default_new gfx mat).2 api2)
          = calculate_vertex_size_in_bytes api2.vert_info.layout
              (gs_dyn_array_size api2.vert_info.layout)
      ∧ (calculate_vertex_size_in_bytes api2.vert_info.layout
            (gs_dyn_array_size api2.vert_info.layout) ≠ 0 →
          (∃ qb', __gs_quad_batch_add_raw_vert_data
              (with_api (__gs_quad_batch_default_new gfx mat).2 api2) qb data data.length
              = Except.ok qb'
            ∧ qb'.mesh.vertex_count = qb.mesh.vertex_count
                + u32 (data.length / calculate_vertex_size_in_bytes api2.vert_info.layout
                    (gs_dyn_array_size api2.vert_info.layout)))
          ∧ (∃ qb', __gs_quad_batch_default_add host
              (with_api (__gs_quad_batch_default_new gfx mat).2 api2) qb (some q) n
              = Except.ok qb'
            ∧ qb'.mesh.vertex_count = qb.mesh.vertex_count
                + sizeof_verts / calculate_vertex_size_in_bytes api2.vert_info.layout
                    (gs_dyn_array_size api2.vert_info.layout))) := by
  have hle := u32_le (layout_size / sizeof_gs_vertex_attribute_type)
  refine ⟨rfl, _, set_layout_ok _ layout2 layout_size (by omega), rfl, rfl, rfl, ?_⟩
  intro hs
  refine ⟨⟨_, add_raw_vert_data_ok _ qb data data.length ?_ (le_refl _), rfl⟩,
    ⟨_, default_add_ok host _ qb q n ?_, rfl⟩⟩
  · rw [vertex_stride_with_api]; exact hs
  · rw [vertex_stride_with_api]; exact hs

/-- C7, witness: a batch constructed under the default layout (stride 36), then
`set_layout` with the single tag `float2` (stride 8): a default add on the
earlier batch adds `216 / 8 = 27` vertices. -/
theorem C7_adds_count_with_the_current_layout_witness :
    4 / sizeof_gs_vertex_attribute_type ≤ [gs_vertex_attribute_float2].length
    ∧ ∃ api2, __gs_quad_batch_i_set_layout
          (__gs_quad_batch_default_new default_gfx 1).2.quad_batch_i
          [gs_vertex_attribute_float2] 4 = Except.ok api2
      ∧ api2.vert_info.layout = [gs_vertex_attribute_float2]
      ∧ ∃ qb', __gs_quad_batch_default_add example_host
            (with_api (__gs_quad_batch_default_new default_gfx 1).2 api2)
            (__gs_quad_batch_default_new default_gfx 1).1 (some unit_quad) 72 = Except.ok qb'
          ∧ qb'.mesh.vertex_count = 27 := by
  obtain ⟨_, api2, h1, h2, _, _, h5⟩ :=
    C7_adds_count_with_the_current_layout example_host default_gfx 1 2
      [gs_vertex_attribute_float2] 4 (__gs_quad_batch_default_new default_gfx 1).1 []
      unit_quad 72 (by decide)
  have h2' : api2.vert_info.layout = [gs_vertex_attribute_float2] := h2
  have hs : calculate_vertex_size_in_bytes api2.vert_info.layout
      (gs_dyn_array_size api2.vert_info.layout) = 8 := by rw [h2']; rfl
  obtain ⟨_, qb', h6, h7⟩ := h5 (by omega)
  refine ⟨by decide, api2, h1, h2', qb', h6, ?_⟩
  rw [h7, hs]
  rfl

/-- C7, counterexample: a batch is constructed under the default layout L1
(stride 36, six vertices per default add); `set_layout` then installs
`{float2}` (stride 8); the next default add on that batch, after `begin`, counts
27 vertices, the count by the stride of the new layout, not 6. -/
theorem C7_counterexample :
    vertex_stride default_gfx = 36
    ∧ sizeof_verts / vertex_stride default_gfx = 6
    ∧ __gs_quad_batch_i_set_layout (__gs_quad_batch_default_new default_gfx 1).2.quad_batch_i
        [gs_vertex_attribute_float2] 4 = Except.ok (api_with_layout [gs_vertex_attribute_float2])
    ∧ ∃ qb', __gs_quad_batch_default_add example_host
          (with_api (__gs_quad_batch_default_new default_gfx 1).2
            (api_with_layout [gs_vertex_attribute_float2]))
          (__gs_quad_batch_default_begin (__gs_quad_batch_default_new default_gfx 1).1)
          (some unit_quad) 72 = Except.ok qb'
        ∧ qb'.mesh.vertex_count = 27
        ∧ qb'.mesh.vertex_count ≠ sizeof_verts / vertex_stride default_gfx :=
  ⟨by decide, by decide, rfl, _,
    default_add_ok example_host _ _ unit_quad 72 (by decide), by rfl, by decide⟩

end claim_7

section claim_8

/-- C8 (as amended). For an input array that holds `floor(layout_size / sizeof(tag))`
entries or more, the layout setter completes; afterwards the layout of the API
is exactly the first `floor(layout_size / sizeof(tag)) mod 2 ^ 32` entries of
the input, in input order (the count is narrowed to `u32`), which are the first
`floor(layout_size / sizeof(tag))` entries whenever that count is below
`2 ^ 32`; no entry of the prior layout remains and no other field of the API
object changes. -/
theorem C8_set_layout_replaces (api : gs_quad_batch_i) (layout : List gs_vertex_attribute_type)
    (layout_size : Nat)
    (h : layout_size / sizeof_gs_vertex_attribute_type ≤ layout.length) :
    ∃ api', __gs_quad_batch_i_set_layout api layout layout_size = Except.ok api'
      ∧ api'.vert_info.layout
          = layout.take (layout_size / sizeof_gs_vertex_attribute_type % 2 ^ 32)
      ∧ (layout_size / sizeof_gs_vertex_attribute_type < 2 ^ 32 →
          api'.vert_info.layout = layout.take (layout_size / sizeof_gs_vertex_attribute_type))
      ∧ api' = { api with vert_info := api'.vert_info } := by
  have hle := u32_le (layout_size / sizeof_gs_vertex_attribute_type)
  refine ⟨_, set_layout_ok api layout layout_size (by omega), rfl, ?_, rfl⟩
  intro hlt
  show layout.take (u32 _) = _
  rw [u32_of_lt hlt]

/-- C8, witness: three tags passed with a size of 9 bytes replace the default
layout by the first two of them. -/
theorem C8_set_layout_replaces_witness :
    9 / sizeof_gs_vertex_attribute_type
        ≤ [gs_vertex_attribute_float4, gs_vertex_attribute_float2,
            gs_vertex_attribute_float3].length
    ∧ ∃ api', __gs_quad_batch_i_set_layout __gs_quad_batch_i_new
          [gs_vertex_attribute_float4, gs_vertex_attribute_float2, gs_vertex_attribute_float3] 9
          = Except.ok api'
        ∧ api'.vert_info.layout = [gs_vertex_attribute_float4, gs_vertex_attribute_float2]
        ∧ api' = { __gs_quad_batch_i_new with vert_info := api'.vert_info } := by
  obtain ⟨api', h1, _, h3, h4⟩ := C8_set_layout_replaces __gs_quad_batch_i_new
    [gs_vertex_attribute_float4, gs_vertex_attribute_float2, gs_vertex_attribute_float3] 9
    (by decide)
  exact ⟨by decide, api', h1, h3 (by decide), h4⟩

/-- C8, counterexample: an input array of `2 ^ 32` tags passed with its size in
bytes, `4 * 2 ^ 32`: the count `2 ^ 32` narrows to `0`, the loop does not run
and the layout is left empty, not the first `2 ^ 32` entries of the input. -/
theorem C8_counterexample :
    4 * 2 ^ 32 / sizeof_gs_vertex_attribute_type
        = (List.replicate (2 ^ 32) gs_vertex_attribute_float2).length
    ∧ ∃ api', __gs_quad_batch_i_set_layout __gs_quad_batch_i_new
          (List.replicate (2 ^ 32) gs_vertex_attribute_float2) (4 * 2 ^ 32) = Except.ok api'
        ∧ api'.vert_info.layout = []
        ∧ api'.vert_info.layout ≠ (List.replicate (2 ^ 32) gs_vertex_attribute_float2).take
            (4 * 2 ^ 32 / sizeof_gs_vertex_attribute_type) := by
  have hc : u32 (4 * 2 ^ 32 / sizeof_gs_vertex_attribute_type) = 0 := by decide
  have hn : 4 * 2 ^ 32 / sizeof_gs_vertex_attribute_type = 2 ^ 32 := by decide
  refine ⟨?_, _, set_layout_ok _ _ _ (by rw [hc]; exact Nat.zero_le _), ?_, ?_⟩
  · rw [List.length_replicate, hn]
  · show List.take (u32 _) _ = []
    rw [hc, List.take_zero]
  · show List.take (u32 _) _ ≠ _
    rw [hc, List.take_zero, hn]
    intro h
    have := congrArg List.length h
    rw [List.length_take, List.length_replicate, List.length_nil, Nat.min_self] at this
    exact absurd this (by decide)

end claim_8

section claims_9_10

variable {F : Type} [Zero F] [One F] [Neg F] [Add F] [Mul F] [Div F]

/-- C9 (as amended). The default add halts on its assertion if and only if the
quad-info pointer is null, and then the batch, its staging buffer and
`mesh.vertex_count`, is as it was; its result does not depend on
`quad_info_data_size`, which it never reads; and for every non-null input it
completes, whatever the size argument, provided the stride of the configured
layout is not zero. -/
theorem C9_default_add_faults (host : Host F) (gfx : gs_graphics_i) (qb : gs_quad_batch_t)
    (quad_info_data : Option (gs_default_quad_info_t F)) (quad_info_data_size : Nat) :
    ((∃ s, __gs_quad_batch_default_add host gfx qb quad_info_data quad_info_data_size
          = Except.error (Fault.assertion_failed, s)) ↔ quad_info_data = none)
    ∧ (quad_info_data = none →
        __gs_quad_batch_default_add host gfx qb quad_info_data quad_info_data_size
          = Except.error (Fault.assertion_failed, qb))
    ∧ (∀ m, __gs_quad_batch_default_add host gfx qb quad_info_data m
          = __gs_quad_batch_default_add host gfx qb quad_info_data quad_info_data_size)
    ∧ (quad_info_data ≠ none → vertex_stride gfx ≠ 0 →
        ∃ qb', ∀ m, __gs_quad_batch_default_add host gfx qb quad_info_data m = Except.ok qb') := by
  cases quad_info_data with
  | none =>
    exact ⟨⟨fun _ => rfl, fun _ => ⟨qb, rfl⟩⟩, fun _ => rfl, fun _ => rfl,
      fun h => absurd rfl h⟩
  | some q =>
    by_cases hs : vertex_stride gfx = 0
    · have hz := default_add_zero_stride host gfx qb q quad_info_data_size hs
      refine ⟨⟨?_, fun h => by simp at h⟩, fun h => by simp at h,
        fun m => by rw [hz, default_add_zero_stride host gfx qb q m hs],
        fun _ h => absurd hs h⟩
      rintro ⟨s, h⟩
      rw [hz] at h
      simp at h
    · have hok := default_add_ok host gfx qb q quad_info_data_size hs
      refine ⟨⟨?_, fun h => by simp at h⟩, fun h => by simp at h,
        fun m => by rw [hok, default_add_ok host gfx qb q m hs],
        fun _ _ => ⟨_, fun m => default_add_ok host gfx qb q m hs⟩⟩
      rintro ⟨s, h⟩
      rw [hok] at h
      simp at h

/-- C9, witness: a non-null quad under the default layout completes, whatever
the size argument. -/
theorem C9_default_add_faults_witness :
    (some unit_quad ≠ none) ∧ vertex_stride default_gfx ≠ 0
    ∧ ∃ qb', ∀ m, __gs_quad_batch_default_add example_host default_gfx used_batch
        (some unit_quad) m = Except.ok qb' :=
  ⟨by simp, by decide,
    (C9_default_add_faults example_host default_gfx used_batch (some unit_quad) 3).2.2.2
      (by simp) (by decide)⟩

/-- C9, counterexample: `set_layout` with a size of zero installs the empty
layout; the default add of a non-null quad then does not complete: it reaches
the division by zero of the raw append. -/
theorem C9_counterexample :
    __gs_quad_batch_i_set_layout __gs_quad_batch_i_new [] 0 = Except.ok (api_with_layout [])
    ∧ (some unit_quad ≠ none)
    ∧ (∃ s, __gs_quad_batch_default_add example_host
        (with_api default_gfx (api_with_layout [])) used_batch (some unit_quad) 72
        = Except.error (Fault.division_by_zero, s))
    ∧ ¬ ∃ qb', __gs_quad_batch_default_add example_host
        (with_api default_gfx (api_with_layout [])) used_batch (some unit_quad) 72
        = Except.ok qb' := by
  have hz := default_add_zero_stride example_host (with_api default_gfx (api_with_layout []))
    used_batch unit_quad 72 (by decide)
  refine ⟨rfl, by simp, ⟨_, hz⟩, ?_⟩
  rintro ⟨qb', h⟩
  rw [hz] at h
  simp at h

/-- C10. The division `data_size / vert_size` of the raw append has no guard of
its own. When the configured layout has at least one attribute the stride is
positive and no raw append halts on a division by zero. But `set_layout` with
`layout_size < sizeof(tag)` completes, whatever the input array, and installs
the empty layout, whose stride is zero; after that every raw append, and every
default add of a non-null quad, halts on the division by zero, the batch
untouched. -/
theorem C10_division_guarded_by_layout_only (host : Host F) (gfx : gs_graphics_i)
    (api : gs_quad_batch_i) (input : List gs_vertex_attribute_type) (layout_size : Nat)
    (qb : gs_quad_batch_t) (data : List Byte) (data_size : Nat)
    (q : gs_default_quad_info_t F) (n : Nat) :
    (gfx.quad_batch_i.vert_info.layout ≠ [] →
        0 < vertex_stride gfx
        ∧ ∀ s, __gs_quad_batch_add_raw_vert_data gfx qb data data_size
            ≠ Except.error (Fault.division_by_zero, s))
    ∧ (layout_size < sizeof_gs_vertex_attribute_type →
        ∃ api', __gs_quad_batch_i_set_layout api input layout_size = Except.ok api'
          ∧ api'.vert_info.layout = []
          ∧ vertex_stride (with_api gfx api') = 0
          ∧ __gs_quad_batch_add_raw_vert_data (with_api gfx api') qb data data_size
              = Except.error (Fault.division_by_zero, qb)
          ∧ __gs_quad_batch_default_add host (with_api gfx api') qb (some q) n
              = Except.error (Fault.division_by_zero, qb)) := by
  constructor
  · intro hne
    have hpos := vertex_stride_pos_of_layout_ne_nil gfx hne
    refine ⟨hpos, ?_⟩
    intro s h
    unfold vertex_stride at hpos
    simp only [__gs_quad_batch_add_raw_vert_data, Nat.pos_iff_ne_zero.mp hpos, if_false] at h
    split at h <;> simp at h
  · intro hlt
    have hq : layout_size / sizeof_gs_vertex_attribute_type = 0 :=
      Nat.div_eq_of_lt hlt
    have hc : u32 (layout_size / sizeof_gs_vertex_attribute_type) = 0 := by rw [hq]; rfl
    have hset := set_layout_ok api input layout_size (by rw [hc]; exact Nat.zero_le _)
    rw [hc, List.take_zero] at hset
    refine ⟨_, hset, rfl, rfl, ?_, ?_⟩
    · exact add_raw_vert_data_zero_stride _ qb data data_size rfl
    · exact default_add_zero_stride host _ qb q n rfl

/-- C10, witness: under the default layout no raw append divides by zero; and
`set_layout` with a size of 3 bytes, below `sizeof(tag) = 4`, empties the
layout, after which the default add of the unit quad halts on the division. -/
theorem C10_division_guarded_by_layout_only_witness :
    default_gfx.quad_batch_i.vert_info.layout ≠ []
    ∧ 3 < sizeof_gs_vertex_attribute_type
    ∧ 0 < vertex_stride default_gfx
    ∧ ∃ api', __gs_quad_batch_i_set_layout __gs_quad_batch_i_new [gs_vertex_attribute_float4] 3
          = Except.ok api'
        ∧ __gs_quad_batch_default_add example_host (with_api default_gfx api') used_batch
            (some unit_quad) 72 = Except.error (Fault.division_by_zero, used_batch) := by
  have h := C10_division_guarded_by_layout_only example_host default_gfx __gs_quad_batch_i_new
    [gs_vertex_attribute_float4] 3 used_batch [] 0 unit_quad 72
  obtain ⟨api', h1, _, _, _, h5⟩ := h.2 (by decide)
  exact ⟨by decide, by decide, (h.1 (by decide)).1, api', h1, h5⟩

end claims_9_10

end GsQuadBatch
